import Mathlib

/-!
Verification of the StartupRadar transformers API access layer
(`startupradar/transformers/util/api.py`): the caching, paginated HTTP
client.  The Python code is shallowly embedded: pure helpers become Lean
functions, the HTTP transport becomes an oracle function, the cache store
becomes an association list threaded through each operation, and every
operation additionally returns the list of observable effects (transport
calls, cache accesses, warning-level log signals) it performed.
Python exceptions become an explicit error type carried in `Except`.
-/

set_option autoImplicit false

namespace StartupRadar

/-- Decoded JSON values, as produced by `json.loads` / `response.json()`.
Numbers are modelled as integers (no claim involves fractional payloads). -/
inductive Json where
  | null : Json
  | bool (b : Bool) : Json
  | num (n : Int) : Json
  | str (s : String) : Json
  | arr (elems : List Json) : Json
  | obj (fields : List (String × Json)) : Json

/-- Python truthiness (`if not raw:`) of a decoded JSON value:
`None`, `False`, `0`, `""`, `[]`, `{}` are falsy. -/
def Json.falsy : Json → Bool
  | .null => true
  | .bool b => !b
  | .num n => n == 0
  | .str s => s == ""
  | .arr xs => xs.isEmpty
  | .obj fs => fs.isEmpty

/-- First binding of `k` in an association list (Python dict lookup). -/
def assocLookup (k : String) : List (String × Json) → Option Json
  | [] => none
  | (k', v) :: rest => if k' = k then some v else assocLookup k rest

/-- Python exceptions raised by the embedded code.  `notInCache` models
`NotInCacheException`, which `api.py` imports from
`startupradar.transformers.util.exceptions`; the class itself is absent
from the sources, so it is modelled from the spec, which describes it as
an internal control-flow signal raised on a cache miss and never surfaced
past the cache-or-fetch policy. -/
inductive InvalidReason where
  | falsy      -- "domain is falsy"
  | spaces     -- "domain contains spaces"
  | mismatch   -- "domain is invalid" (registrable-domain extraction differs)
deriving DecidableEq, Repr

inductive PyError where
  | notFound : PyError                       -- NotFoundError
  | forbidden (detail : Json) : PyError      -- ForbiddenError
  | apiError (status_code : Nat) : PyError   -- StartupRadarAPIError (unhandled status)
  | invalidDomain (reason : InvalidReason) : PyError  -- InvalidDomainError
  | notInCache : PyError                     -- NotInCacheException
  | keyError : PyError                       -- KeyError
  | typeError : PyError                      -- TypeError
  | valueError : PyError                     -- ValueError

/-- `len()` on a decoded JSON value: sized containers only, otherwise
`TypeError`. -/
def pyLen : Json → Except PyError Nat
  | .arr xs => .ok xs.length
  | .obj fs => .ok fs.length
  | .str s => .ok s.length
  | _ => .error .typeError

/-- Iterating a decoded JSON value (`for x in response`, `chain(*pages)`):
lists yield their elements, dicts their keys, anything else `TypeError`.
(String iteration never occurs in the embedded code paths.) -/
def pyIter : Json → Except PyError (List Json)
  | .arr xs => .ok xs
  | .obj fs => .ok (fs.map (fun kv => Json.str kv.1))
  | _ => .error .typeError

/-- `value[k]` for a string key: dict lookup (`KeyError` when absent),
`TypeError` on anything that is not a dict. -/
def pySubscript (v : Json) (k : String) : Except PyError Json :=
  match v with
  | .obj fs =>
    match assocLookup k fs with
    | some x => .ok x
    | none => .error .keyError
  | _ => .error .typeError

/-- `class ResponseStatus(Enum)`. -/
inductive ResponseStatus where
  | OK : ResponseStatus
  | NOT_FOUND : ResponseStatus
deriving DecidableEq, Repr

/-- The `.value` of each enum member. -/
def ResponseStatus.value : ResponseStatus → String
  | .OK => "ok"
  | .NOT_FOUND => "not found"

/-- `ResponseStatus(s)` on a string: enum lookup by value, `ValueError`
when no member has that value. -/
def ResponseStatus.ofValue : String → Except PyError ResponseStatus
  | "ok" => .ok .OK
  | "not found" => .ok .NOT_FOUND
  | _ => .error .valueError

/-- `class CachedResponse`: the tagged found/not-found envelope.
`CachedResponse(status)` leaves `data = None`, modelled as `Json.null`. -/
structure CachedResponse where
  status : ResponseStatus
  data : Json

/-- `CachedResponse.to_json`. -/
def CachedResponse.to_json (r : CachedResponse) : Json :=
  .obj [("status", .str r.status.value), ("data", r.data)]

/-- `CachedResponse.to_bytes`: `json.dumps(...).encode()`.  The standard
library `json.dumps`/`json.loads` pair is modelled as the identity on
structured JSON values, so the serialized bytes are represented by the
structured value itself. -/
def CachedResponse.to_bytes (r : CachedResponse) : Json :=
  r.to_json

/-- `CachedResponse.from_bytes`: `CachedResponse(**json.loads(bytes_))`.
Keyword expansion requires a dict whose keys are among
`{status, data}` with `status` present (otherwise `TypeError`); the
status string goes through `ResponseStatus(...)`, `data` defaults to
`None`. -/
def CachedResponse.from_bytes (j : Json) : Except PyError CachedResponse :=
  match j with
  | .obj fields =>
    if fields.any (fun kv => kv.1 ≠ "status" ∧ kv.1 ≠ "data") then
      .error .typeError
    else
      match assocLookup "status" fields with
      | none => .error .typeError
      | some (.str sv) =>
        match ResponseStatus.ofValue sv with
        | .ok st => .ok ⟨st, (assocLookup "data" fields).getD .null⟩
        | .error e => .error e
      | some _ => .error .valueError
  | _ => .error .typeError

/-- `CachedResponse.is_not_found`. -/
def CachedResponse.is_not_found (r : CachedResponse) : Bool :=
  r.status == ResponseStatus.NOT_FOUND

/-- Bytes Python's `urllib.parse.quote` leaves unescaped with `safe=""`:
ASCII letters, digits and `_ . - ~`. -/
def isUnreservedByte (b : Nat) : Bool :=
  (65 ≤ b && b ≤ 90) || (97 ≤ b && b ≤ 122) || (48 ≤ b && b ≤ 57) ||
    b == 45 || b == 46 || b == 95 || b == 126

def hexDigitUpper (n : Nat) : Char :=
  if n < 10 then Char.ofNat (48 + n) else Char.ofNat (55 + n)

/-- Percent-escape of one byte. -/
def quoteByte (b : Nat) : String :=
  if isUnreservedByte b then String.singleton (Char.ofNat b)
  else "%" ++ String.singleton (hexDigitUpper (b / 16)) ++
    String.singleton (hexDigitUpper (b % 16))

/-- UTF-8 encoding of one code point, as byte values. -/
def utf8Bytes (n : Nat) : List Nat :=
  if n < 128 then [n]
  else if n < 2048 then [192 + n / 64, 128 + n % 64]
  else if n < 65536 then [224 + n / 4096, 128 + n / 64 % 64, 128 + n % 64]
  else [240 + n / 262144, 128 + n / 4096 % 64, 128 + n / 64 % 64, 128 + n % 64]

/-- `urllib.parse.quote(s, safe="")`: UTF-8 encode, then percent-escape
every byte outside the unreserved set. -/
def quote (s : String) : String :=
  String.join ((s.data.flatMap (fun c => utf8Bytes c.toNat)).map quoteByte)

/-- The byte store backing `MinimalKeyValueCache` (`minimalkv`'s
`KeyValueStore`, e.g. `DictStore`): string keys to serialized envelopes
(bytes represented structurally, see `CachedResponse.to_bytes`). -/
abbrev Store := List (String × Json)

/-- `KeyValueStore.get`: first (and only, keys are unique per `put`)
binding of the key. -/
def storeGet (k : String) : Store → Option Json
  | [] => none
  | (k', v) :: rest => if k' = k then some v else storeGet k rest

/-- `KeyValueStore.put`: overwrite the existing binding or append
(last-write-wins). -/
def storePut (k : String) (v : Json) : Store → Store
  | [] => [(k, v)]
  | (k', v') :: rest =>
    if k' = k then (k, v) :: rest else (k', v') :: storePut k v rest

/-- The cache variants: `PassThroughCache` and
`MinimalKeyValueCache(store)`. -/
inductive Cache where
  | passThrough : Cache
  | minimalKV (store : Store) : Cache

/-- `MinimalKeyValueCache.endpoint_to_key`. -/
def endpoint_to_key (endpoint : String) : String :=
  quote endpoint

/-- `CacheI.get`: `PassThroughCache.get` always raises
`NotInCacheException`; `MinimalKeyValueCache.get` maps a `KeyError` of
the store to `NotInCacheException` and otherwise deserializes the stored
envelope (deserialization failures propagate as-is). -/
def Cache.get (c : Cache) (endpoint : String) : Except PyError CachedResponse :=
  match c with
  | .passThrough => .error .notInCache
  | .minimalKV store =>
    match storeGet (endpoint_to_key endpoint) store with
    | none => .error .notInCache
    | some bytes => CachedResponse.from_bytes bytes

/-- `CacheI.put`: no-op for `PassThroughCache`, serialize-and-store for
`MinimalKeyValueCache`. -/
def Cache.put (c : Cache) (endpoint : String) (result : CachedResponse) : Cache :=
  match c with
  | .passThrough => .passThrough
  | .minimalKV store =>
    .minimalKV (storePut (endpoint_to_key endpoint) result.to_bytes store)

/-- `tldextract.ExtractResult`. -/
structure ExtractResult where
  subdomain : String
  domain : String
  suffix : String

/-- `ExtractResult.registered_domain`: `domain + "." + suffix` when both
parts are non-empty, otherwise the empty string. -/
def ExtractResult.registered_domain (e : ExtractResult) : String :=
  if e.domain ≠ "" ∧ e.suffix ≠ "" then e.domain ++ "." ++ e.suffix else ""

/-- Modelled external collaborator (spec: "a domain-suffix-extraction
capability"): a finite sample of the public suffix list used by
`tldextract`, containing every suffix the development touches. -/
def publicSuffixes : List String :=
  ["com", "org", "net", "io", "de", "uk", "co.uk", "edu", "gov", "ai",
   "dev", "app", "fr", "it", "nl", "es", "eu", "us", "ca", "info", "co"]

/-- Join labels with dots. -/
def joinDots : List String → String
  | [] => ""
  | [x] => x
  | x :: xs => x ++ "." ++ joinDots xs

/-- Does `p` start `s`?  (Structural stand-in for `String.startsWith`.) -/
def charsStart : List Char → List Char → Bool
  | [], _ => true
  | _, [] => false
  | p :: ps, c :: cs => p == c && charsStart ps cs

/-- Split a character list on a separator (Python `str.split(sep)`:
always at least one, possibly empty, piece). -/
def splitCharsAux (sep : Char) : List Char → List Char → List (List Char)
  | [], acc => [acc.reverse]
  | c :: cs, acc =>
    if c == sep then acc.reverse :: splitCharsAux sep cs []
    else splitCharsAux sep cs (c :: acc)

def splitChars (sep : Char) (cs : List Char) : List (List Char) :=
  splitCharsAux sep cs []

/-- Python `str.strip()`: drop leading and trailing whitespace. -/
def pyStrip (s : String) : String :=
  String.mk
    (((s.data.dropWhile Char.isWhitespace).reverse.dropWhile
      Char.isWhitespace).reverse)

/-- Host part of a URL: strip the scheme, drop userinfo, cut at the
first path/port/query/fragment delimiter. -/
def urlHost (url : String) : String :=
  let rest :=
    if charsStart "http://".data url.data then url.drop 7
    else if charsStart "https://".data url.data then url.drop 8
    else url
  let netloc := rest.data.takeWhile (fun c => !(c == '/' || c == '?' || c == '#'))
  let afterUser := (splitChars '@' netloc).getLastD netloc
  String.mk (afterUser.takeWhile (fun c => !(c == ':')))

/-- `tldextract`'s IPv4-literal detection (`looks_like_ip`). -/
def looksLikeIp (host : String) : Bool :=
  let labels := splitChars '.' host.data
  labels.length == 4 &&
    labels.all (fun l => !l.isEmpty && l.length ≤ 3 && l.all Char.isDigit)

/-- Length (in labels) of the longest known public suffix ending the
label list; `0` when no suffix matches. -/
def findSuffixLen (labels : List String) : Nat :=
  (List.range (labels.length + 1)).foldl
    (fun best k =>
      if joinDots (labels.drop (labels.length - k)) ∈ publicSuffixes then k
      else best)
    0

/-- Modelled external collaborator: `tldextract.extract`.  Splits the
URL's host into subdomain / domain / suffix against `publicSuffixes`,
treating IPv4 literals as suffix-less hosts, like the real library. -/
def tldextract (url : String) : ExtractResult :=
  let host := urlHost url
  if looksLikeIp host then ⟨"", host, ""⟩
  else
    let labels := (splitChars '.' host.data).map String.mk
    let k := findSuffixLen labels
    let front := labels.take (labels.length - k)
    let suffix := joinDots (labels.drop (labels.length - k))
    match front.getLast? with
    | none => ⟨"", "", suffix⟩
    | some dom => ⟨joinDots front.dropLast, dom, suffix⟩

/-- `ensure_valid_domain`: falsy check, whitespace check, then
registrable-domain extraction of `"http://" + domain`, in that order,
failing fast with `InvalidDomainError` (the Python messages are
abstracted into `InvalidReason` tags). -/
def ensure_valid_domain (domain : String) : Except PyError Unit :=
  if domain = "" then .error (.invalidDomain .falsy)
  else if domain ≠ pyStrip domain then .error (.invalidDomain .spaces)
  else
    let extraction := tldextract ("http://" ++ domain)
    let domain_actual := extraction.registered_domain
    if domain_actual ≠ domain then .error (.invalidDomain .mismatch)
    else .ok ()

/-- `is_valid_domain`: wraps `ensure_valid_domain`, swallowing
`InvalidDomainError`. -/
def is_valid_domain (domain : String) : Bool :=
  match ensure_valid_domain domain with
  | .ok _ => true
  | .error _ => false

/-- A simple calendar date, standing in for `datetime.datetime` restricted
to the `"%Y-%m-%d"` layout produced by `parse_date_or_none`. -/
structure Date where
  year : Nat
  month : Nat
  day : Nat
deriving DecidableEq, Repr

def isLeapYear (y : Nat) : Bool :=
  (y % 4 == 0 && y % 100 != 0) || y % 400 == 0

def daysInMonth (y m : Nat) : Nat :=
  if m = 2 then (if isLeapYear y then 29 else 28)
  else if m = 4 ∨ m = 6 ∨ m = 9 ∨ m = 11 then 30
  else 31

def digitsToNat (cs : List Char) : Nat :=
  cs.foldl (fun n c => n * 10 + (c.toNat - 48)) 0

/-- Modelled external collaborator: `datetime.strptime(raw, "%Y-%m-%d")`.
Three dash-separated all-digit fields making up a real calendar date;
anything else raises `ValueError`. -/
def strptimeYmd (raw : String) : Except PyError Date :=
  match splitChars '-' raw.data with
  | [ys, ms, ds] =>
    if ys ≠ [] && ys.length ≤ 4 && ys.all Char.isDigit &&
        ms ≠ [] && ms.length ≤ 2 && ms.all Char.isDigit &&
        ds ≠ [] && ds.length ≤ 2 && ds.all Char.isDigit then
      let y := digitsToNat ys
      let m := digitsToNat ms
      let d := digitsToNat ds
      if 1 ≤ m && m ≤ 12 && 1 ≤ d && d ≤ daysInMonth y m then .ok ⟨y, m, d⟩
      else .error .valueError
    else .error .valueError
  | _ => .error .valueError

/-- `parse_date_or_none`: falsy raw values decode to `None`; otherwise
`strptime` the string (`TypeError` when the value is not a string). -/
def parse_date_or_none (raw : Json) : Except PyError (Option Date) :=
  if raw.falsy then .ok none
  else
    match raw with
    | .str s => (strptimeYmd s).map some
    | _ => .error .typeError

/-- One transport response: `status_code` plus the decoded body
(`response.json()`); bodies are modelled as already-decoded JSON. -/
structure HttpResponse where
  status_code : Nat
  body : Json

/-- The transport oracle (the session produced by `session_factory`, keyed
by endpoint path and query parameters; the fixed base URL and the static
`X-ApiKey` header carry no information and are omitted). -/
abbrev Transport := String → List (String × Nat) → HttpResponse

/-- Observable effects of one operation: transport calls, cache-interface
calls, and warning-level log signals (debug/info logging is not
modelled). -/
inductive Event where
  | transportCall (endpoint : String) (params : List (String × Nat)) : Event
  | cacheGet (endpoint : String) : Event
  | cachePut (endpoint : String) : Event
  | logWarning : Event
deriving DecidableEq, Repr

def Event.isTransportCall : Event → Bool
  | .transportCall _ _ => true
  | _ => false

def Event.isCacheOp : Event → Bool
  | .cacheGet _ => true
  | .cachePut _ => true
  | _ => false

/-- `StartupRadarAPI.PAGE_LIMIT_DEFAULT`. -/
def PAGE_LIMIT_DEFAULT : Nat := 100

/-- `StartupRadarAPI.MAX_PAGES_DEFAULT`. -/
def MAX_PAGES_DEFAULT : Nat := 100

/-- The configuration stored by `StartupRadarAPI.__init__` (the session
factory and cache are threaded separately as the transport oracle and the
cache state). -/
structure StartupRadarAPI where
  api_key : String
  page_limit : Nat := PAGE_LIMIT_DEFAULT
  max_pages : Nat := MAX_PAGES_DEFAULT

/-- `DOMAINS_IGNORED_BACKLINKS`. -/
def DOMAINS_IGNORED_BACKLINKS : List String :=
  ["google.com", "facebook.com", "twitter.com", "instagram.com",
   "linkedin.com", "youtube.com", "apple.com"]

/-- Status-code mapping of `StartupRadarAPI._request`: 200 decodes the
body, 403 raises `ForbiddenError` with the body's `detail` field, 404
raises `NotFoundError`, anything else `StartupRadarAPIError`. -/
def requestResult (resp : HttpResponse) : Except PyError Json :=
  if resp.status_code = 200 then .ok resp.body
  else if resp.status_code = 403 then
    (match pySubscript resp.body "detail" with
     | .ok detail => .error (.forbidden detail)
     | .error e => .error e)
  else if resp.status_code = 404 then .error .notFound
  else .error (.apiError resp.status_code)

/-- `StartupRadarAPI._request`: one GET against the transport, with the
status-code mapping of `requestResult`. -/
def request (t : Transport) (endpoint : String) (params : List (String × Nat)) :
    Except PyError Json × List Event :=
  (requestResult (t endpoint params), [Event.transportCall endpoint params])

/-- The loop of `StartupRadarAPI._request_paged`: `for page in
range(max_pages)`, request `{page, limit}`, collect the page, break when a
page is shorter than the limit.  Arguments: next page index, remaining
iterations.  Returns the collected pages. -/
def request_paged_loop (t : Transport) (endpoint : String) (page_limit : Nat) :
    Nat → Nat → Except PyError (List Json) × List Event
  | _, 0 => (.ok [], [])
  | page, fuel + 1 =>
    match request t endpoint [("page", page), ("limit", page_limit)] with
    | (.error e, ev) => (.error e, ev)
    | (.ok resp, ev) =>
      match pyLen resp with
      | .error e => (.error e, ev)
      | .ok len =>
        if len < page_limit then (.ok [resp], ev)
        else
          match request_paged_loop t endpoint page_limit (page + 1) fuel with
          | (.error e, ev') => (.error e, ev ++ ev')
          | (.ok pages, ev') => (.ok (resp :: pages), ev ++ ev')

/-- `list(chain(*pages))`: iterate each page and concatenate. -/
def chainPages : List Json → Except PyError (List Json)
  | [] => .ok []
  | p :: ps =>
    match pyIter p with
    | .error e => .error e
    | .ok xs =>
      match chainPages ps with
      | .error e => .error e
      | .ok rest => .ok (xs ++ rest)

/-- `StartupRadarAPI._request_paged`: run the page loop from page 0 and
flatten the pages (the caller sees one JSON list). -/
def request_paged (api : StartupRadarAPI) (t : Transport) (endpoint : String)
    (max_pages : Nat) : Except PyError Json × List Event :=
  match request_paged_loop t endpoint api.page_limit 0 max_pages with
  | (.error e, ev) => (.error e, ev)
  | (.ok pages, ev) =>
    match chainPages pages with
    | .error e => (.error e, ev)
    | .ok records => (.ok (.arr records), ev)

/-- `StartupRadarAPI._cached_or_fetched`: try the cache; a hit replays
NOT_FOUND as `NotFoundError` or returns the data; on `NotInCacheException`
run the fetcher, wrapping success as an OK envelope and a
`NotFoundError` as a NOT_FOUND envelope, store the envelope, and return
its `data` (note: the Python code falls through to `return
cached_response.data` after a 404, it does not re-raise); any other
fetcher failure propagates with nothing stored. -/
def cached_or_fetched (c : Cache) (endpoint : String)
    (result_fetcher : Unit → Except PyError Json × List Event) :
    Except PyError Json × Cache × List Event :=
  let getEv := [Event.cacheGet endpoint]
  match c.get endpoint with
  | .ok cached_response =>
    if cached_response.is_not_found then (.error .notFound, c, getEv)
    else (.ok cached_response.data, c, getEv)
  | .error .notInCache =>
    (match result_fetcher () with
     | (.ok result, fev) =>
       let cached_response : CachedResponse := ⟨.OK, result⟩
       (.ok cached_response.data, c.put endpoint cached_response,
        getEv ++ fev ++ [Event.cachePut endpoint])
     | (.error .notFound, fev) =>
       let cached_response : CachedResponse := ⟨.NOT_FOUND, .null⟩
       (.ok cached_response.data, c.put endpoint cached_response,
        getEv ++ fev ++ [Event.cachePut endpoint])
     | (.error e, fev) => (.error e, c, getEv ++ fev))
  | .error e => (.error e, c, getEv)

/-- `StartupRadarAPI._request_with_cache`: a non-empty params dict skips
the cache entirely (after a warning-level log) and fetches directly;
otherwise go through `cached_or_fetched`. -/
def request_with_cache (t : Transport) (c : Cache) (endpoint : String)
    (params : List (String × Nat)) : Except PyError Json × Cache × List Event :=
  if !params.isEmpty then
    match request t endpoint params with
    | (r, ev) => (r, c, Event.logWarning :: ev)
  else
    cached_or_fetched c endpoint (fun _ => request t endpoint [])

/-- `StartupRadarAPI._request_paged_with_cache` (its `max_pages` parameter
defaults to `MAX_PAGES_DEFAULT`; no caller ever passes it). -/
def request_paged_with_cache (api : StartupRadarAPI) (t : Transport) (c : Cache)
    (endpoint : String) (max_pages : Nat) :
    Except PyError Json × Cache × List Event :=
  cached_or_fetched c endpoint (fun _ => request_paged api t endpoint max_pages)

/-- `StartupRadarAPI.get_domain`. -/
def get_domain (t : Transport) (c : Cache) (domain : String) :
    Except PyError Json × Cache × List Event :=
  match ensure_valid_domain domain with
  | .error e => (.error e, c, [])
  | .ok _ => request_with_cache t c ("/web/domains/" ++ domain) []

/-- The loop of `StartupRadarAPI.generate_domains`: request
`/web/domains` pages from the given index, yielding every record, until a
page has no results.  Fuel-indexed (`none` = the loop did not finish
within the given number of iterations). -/
def generate_domains_loop (api : StartupRadarAPI) (t : Transport) :
    Nat → Nat → Option (Except PyError (List Json) × List Event)
  | _, 0 => none
  | page, fuel + 1 =>
    match request t "/web/domains" [("page", page), ("limit", api.page_limit)] with
    | (.error e, ev) => some (.error e, ev)
    | (.ok resp, ev) =>
      match pyIter resp with
      | .error e => some (.error e, ev)
      | .ok items =>
        match pyLen resp with
        | .error e => some (.error e, ev)
        | .ok len =>
          if 0 < len then
            match generate_domains_loop api t (page + 1) fuel with
            | none => none
            | some (.error e, ev') => some (.error e, ev ++ ev')
            | some (.ok rest, ev') => some (.ok (items ++ rest), ev ++ ev')
          else some (.ok items, ev)

/-- `StartupRadarAPI.generate_domains`: the generator, run to exhaustion
and modelled as the full list of yielded records; every invocation starts
over at page `0` and never touches the cache. -/
def generate_domains (api : StartupRadarAPI) (t : Transport) (fuel : Nat) :
    Option (Except PyError (List Json) × List Event) :=
  generate_domains_loop api t 0 fuel

/-- Specification helper: the records of pages `j, j+1, ..., j+n` of a
page oracle `f`, concatenated in page order. -/
def concatFrom (f : Nat → List Json) : Nat → Nat → List Json
  | j, 0 => f j
  | j, n + 1 => f j ++ concatFrom f (j + 1) n

/-- Specification helper: the transport calls for pages `j, ..., j+n` of
an endpoint at a given page limit. -/
def pageCalls (endpoint : String) (l : Nat) : Nat → Nat → List Event
  | j, 0 => [Event.transportCall endpoint [("page", j), ("limit", l)]]
  | j, n + 1 =>
    Event.transportCall endpoint [("page", j), ("limit", l)] ::
      pageCalls endpoint l (j + 1) n

/-- `StartupRadarAPI.get_links`: validated, then paged-with-cache; the
call site passes no `max_pages`, so the bound is `MAX_PAGES_DEFAULT`, not
`self.max_pages`. -/
def get_links (api : StartupRadarAPI) (t : Transport) (c : Cache)
    (domain : String) : Except PyError Json × Cache × List Event :=
  match ensure_valid_domain domain with
  | .error e => (.error e, c, [])
  | .ok _ =>
    request_paged_with_cache api t c
      ("/web/domains/" ++ domain ++ "/links/domain-links") MAX_PAGES_DEFAULT

/-- `StartupRadarAPI.get_backlinks`: validated; denylisted domains
short-circuit (after a warning-level log) to an empty list with no
transport or cache interaction; otherwise paged-with-cache with the
default page bound. -/
def get_backlinks (api : StartupRadarAPI) (t : Transport) (c : Cache)
    (domain : String) : Except PyError Json × Cache × List Event :=
  match ensure_valid_domain domain with
  | .error e => (.error e, c, [])
  | .ok _ =>
    if domain ∈ DOMAINS_IGNORED_BACKLINKS then
      (.ok (.arr []), c, [Event.logWarning])
    else
      request_paged_with_cache api t c
        ("/web/domains/" ++ domain ++ "/links/domain-backlinks")
        MAX_PAGES_DEFAULT

/-- The dict comprehension in `get_whois`: subscript the raw response at
`created`, `changed`, `expires` and parse each value. -/
def whois_postprocess (raw : Json) : Except PyError (List (String × Option Date)) :=
  ["created", "changed", "expires"].mapM
    (fun k =>
      match pySubscript raw k with
      | .error e => .error e
      | .ok v =>
        match parse_date_or_none v with
        | .error e => .error e
        | .ok d => .ok (k, d))

/-- `StartupRadarAPI.get_whois`. -/
def get_whois (t : Transport) (c : Cache) (domain : String) :
    Except PyError (List (String × Option Date)) × Cache × List Event :=
  match ensure_valid_domain domain with
  | .error e => (.error e, c, [])
  | .ok _ =>
    match request_with_cache t c ("/web/domains/" ++ domain ++ "/whois") [] with
    | (.error e, c', ev) => (.error e, c', ev)
    | (.ok resp_raw, c', ev) =>
      match whois_postprocess resp_raw with
      | .error e => (.error e, c', ev)
      | .ok r => (.ok r, c', ev)

/-! Concrete transport oracles and page oracles used by the concrete
scenarios below. -/

/-- A transport answering 404 to everything (the `test_api_404_gets_cached`
mock). -/
def t404 : Transport := fun _ _ => ⟨404, .null⟩

/-- A transport answering 403 with a detail message to everything. -/
def t403 : Transport := fun _ _ => ⟨403, .obj [("detail", .str "no")]⟩

/-- A transport whose every page is full (one record, page limit 1 in the
scenario that uses it). -/
def tFull : Transport := fun _ _ => ⟨200, .arr [.null]⟩

/-- Page oracle with three full pages of two records and a short fourth
page. -/
def f3 : Nat → List Json :=
  fun p => List.replicate (if p = 3 then 1 else 2) (Json.num p)

/-- Transport serving `f3` keyed on the `page` query parameter. -/
def t3 : Transport :=
  fun _ ps => ⟨200, .arr (f3 ((ps.lookup "page").getD 0))⟩

/-- Page oracle with two one-record pages followed by empty pages. -/
def f9 : Nat → List Json := fun p => if p < 2 then [Json.num p] else []

/-- Transport serving `f9` keyed on the `page` query parameter. -/
def t9 : Transport :=
  fun _ ps => ⟨200, .arr (f9 ((ps.lookup "page").getD 0))⟩

/-! Helper lemmas. -/

theorem storeGet_storePut (k : String) (v : Json) :
    ∀ s : Store, storeGet k (storePut k v s) = some v := by
  intro s
  induction s with
  | nil => simp [storePut, storeGet]
  | cons kv rest ih =>
    obtain ⟨k', v'⟩ := kv
    by_cases h : k' = k <;> simp [storePut, storeGet, h, ih]

theorem from_bytes_to_bytes (st : ResponseStatus) (v : Json) :
    CachedResponse.from_bytes (CachedResponse.to_bytes ⟨st, v⟩) = .ok ⟨st, v⟩ := by
  cases st <;> rfl

theorem cached_or_fetched_hit (c : Cache) (endpoint : String)
    (cr : CachedResponse) (fetcher : Unit → Except PyError Json × List Event)
    (h : c.get endpoint = .ok cr) :
    cached_or_fetched c endpoint fetcher =
      ((if cr.is_not_found then .error .notFound else .ok cr.data), c,
       [Event.cacheGet endpoint]) := by
  by_cases hnf : cr.is_not_found <;> simp [cached_or_fetched, h, hnf]

theorem request_paged_loop_stop (t : Transport) (e : String) (l page fuel : Nat)
    (xs : List Json) (ht : t e [("page", page), ("limit", l)] = ⟨200, .arr xs⟩)
    (hshort : xs.length < l) :
    request_paged_loop t e l page (fuel + 1) =
      (.ok [.arr xs], [Event.transportCall e [("page", page), ("limit", l)]]) := by
  simp only [request_paged_loop, request, ht, requestResult, pyLen]
  simp [hshort]

theorem request_paged_loop_cont (t : Transport) (e : String) (l page fuel : Nat)
    (xs pages : List Json) (ev' : List Event)
    (ht : t e [("page", page), ("limit", l)] = ⟨200, .arr xs⟩)
    (hfull : ¬ xs.length < l)
    (hrec : request_paged_loop t e l (page + 1) fuel = (.ok pages, ev')) :
    request_paged_loop t e l page (fuel + 1) =
      (.ok (.arr xs :: pages),
       Event.transportCall e [("page", page), ("limit", l)] :: ev') := by
  simp only [request_paged_loop, request, ht, requestResult, pyLen]
  simp [hfull, hrec]

theorem generate_domains_loop_stop (api : StartupRadarAPI) (t : Transport)
    (j fuel : Nat) (xs : List Json)
    (ht : t "/web/domains" [("page", j), ("limit", api.page_limit)] =
      ⟨200, .arr xs⟩)
    (hempty : xs.length = 0) :
    generate_domains_loop api t j (fuel + 1) =
      some (.ok xs,
        [Event.transportCall "/web/domains"
          [("page", j), ("limit", api.page_limit)]]) := by
  simp only [generate_domains_loop, request, ht, requestResult, pyIter, pyLen]
  simp [hempty]

theorem generate_domains_loop_cont (api : StartupRadarAPI) (t : Transport)
    (j fuel : Nat) (xs rest : List Json) (ev' : List Event)
    (ht : t "/web/domains" [("page", j), ("limit", api.page_limit)] =
      ⟨200, .arr xs⟩)
    (hpos : 0 < xs.length)
    (hrec : generate_domains_loop api t (j + 1) fuel = some (.ok rest, ev')) :
    generate_domains_loop api t j (fuel + 1) =
      some (.ok (xs ++ rest),
        Event.transportCall "/web/domains"
          [("page", j), ("limit", api.page_limit)] :: ev') := by
  simp only [generate_domains_loop, request, ht, requestResult, pyIter, pyLen]
  simp [hpos, hrec]

theorem generate_domains_loop_run (api : StartupRadarAPI) (t : Transport)
    (f : Nat → List Json)
    (ht : ∀ p, t "/web/domains" [("page", p), ("limit", api.page_limit)] =
      ⟨200, .arr (f p)⟩) :
    ∀ n j, (∀ i < n, f (j + i) ≠ []) → f (j + n) = [] →
      generate_domains_loop api t j (n + 1) =
        some (.ok (concatFrom f j n),
          pageCalls "/web/domains" api.page_limit j n) := by
  intro n
  induction n with
  | zero =>
    intro j _ hlast
    simp only [Nat.add_zero] at hlast
    have := generate_domains_loop_stop api t j 0 (f j) (ht j) (by simp [hlast])
    simpa [concatFrom, pageCalls] using this
  | succ n ih =>
    intro j hne hlast
    have hj : f j ≠ [] := by
      have := hne 0 (by omega)
      simpa using this
    have hpos : 0 < (f j).length := List.length_pos.mpr hj
    have hrec := ih (j + 1)
      (fun i hi => by
        have := hne (i + 1) (by omega)
        simpa [Nat.add_assoc, Nat.add_comm 1 i] using this)
      (by
        have h : j + 1 + n = j + (n + 1) := by omega
        rw [h, hlast])
    have := generate_domains_loop_cont api t j (n + 1) (f j) _ _ (ht j) hpos hrec
    simpa [concatFrom, pageCalls] using this

theorem pageCalls_no_cache (endpoint : String) (l : Nat) :
    ∀ n j, ∀ e ∈ pageCalls endpoint l j n, e.isCacheOp = false := by
  intro n
  induction n with
  | zero => intro j e he; simp [pageCalls] at he; simp [he, Event.isCacheOp]
  | succ n ih =>
    intro j e he
    simp only [pageCalls, List.mem_cons] at he
    rcases he with h | h
    · simp [h, Event.isCacheOp]
    · exact ih (j + 1) e h

/-! Claim theorems. -/

/-- C1: with a key-value cache and a transport answering 404, the first
`get_whois` call stores a NOT_FOUND envelope under the endpoint key and
makes exactly one transport call, but — because `_cached_or_fetched`
swallows the `NotFoundError` and returns the envelope's `None` data
instead of re-raising — the first call fails with `TypeError` (subscripting
`None` in the whois post-processing), not `NotFound`; only the second call
replays the cached envelope and fails with `NotFound` without a transport
call.  This contradicts the claim (and the repo's own
`test_api_404_gets_cached`, which expects `NotFoundError` on both
calls). -/
theorem get_whois_404_miss_raises_typeError_then_cached_notFound :
    get_whois t404 (Cache.minimalKV []) "blabla.de" =
      (.error .typeError,
       Cache.minimalKV [(endpoint_to_key "/web/domains/blabla.de/whois",
         (CachedResponse.mk .NOT_FOUND .null).to_bytes)],
       [Event.cacheGet "/web/domains/blabla.de/whois",
        Event.transportCall "/web/domains/blabla.de/whois" [],
        Event.cachePut "/web/domains/blabla.de/whois"]) ∧
    get_whois t404
      (Cache.minimalKV [(endpoint_to_key "/web/domains/blabla.de/whois",
        (CachedResponse.mk .NOT_FOUND .null).to_bytes)])
      "blabla.de" =
      (.error .notFound,
       Cache.minimalKV [(endpoint_to_key "/web/domains/blabla.de/whois",
         (CachedResponse.mk .NOT_FOUND .null).to_bytes)],
       [Event.cacheGet "/web/domains/blabla.de/whois"]) :=
  ⟨rfl, rfl⟩

/-- C2: on a cache hit no transport call is made: `cached_or_fetched`
never invokes its fetcher (the trace is just the cache read and the cache
is unchanged), a hit replaying NOT_FOUND fails with `NotFound` and any
other hit returns the cached data; concretely, pre-seeding
`/web/domains/x.com` with an OK/null envelope makes `get_domain "x.com"`
return null, and pre-seeding a NOT_FOUND envelope makes it fail with
`NotFound`, both with zero transport calls for every transport. -/
theorem cache_hit_replays_without_transport :
    (∀ (c : Cache) (endpoint : String) (cr : CachedResponse)
        (fetcher : Unit → Except PyError Json × List Event),
        c.get endpoint = .ok cr →
        cached_or_fetched c endpoint fetcher =
          ((if cr.is_not_found then .error .notFound else .ok cr.data), c,
           [Event.cacheGet endpoint])) ∧
    (∀ (t : Transport) (store : Store),
        get_domain t
          ((Cache.minimalKV store).put "/web/domains/x.com" ⟨.OK, .null⟩)
          "x.com" =
          (.ok .null,
           (Cache.minimalKV store).put "/web/domains/x.com" ⟨.OK, .null⟩,
           [Event.cacheGet "/web/domains/x.com"])) ∧
    (∀ (t : Transport) (store : Store),
        get_domain t
          ((Cache.minimalKV store).put "/web/domains/x.com" ⟨.NOT_FOUND, .null⟩)
          "x.com" =
          (.error .notFound,
           (Cache.minimalKV store).put "/web/domains/x.com" ⟨.NOT_FOUND, .null⟩,
           [Event.cacheGet "/web/domains/x.com"])) := by
  refine ⟨cached_or_fetched_hit, ?_, ?_⟩ <;> intro t store
  all_goals {
    have hv : ensure_valid_domain "x.com" = .ok () := rfl
    have hget : ((Cache.minimalKV store).put "/web/domains/x.com"
        ⟨.OK, .null⟩).get "/web/domains/x.com" = .ok ⟨.OK, .null⟩ := by
      simp [Cache.put, Cache.get, storeGet_storePut, from_bytes_to_bytes]
    have hget' : ((Cache.minimalKV store).put "/web/domains/x.com"
        ⟨.NOT_FOUND, .null⟩).get "/web/domains/x.com" =
        .ok ⟨.NOT_FOUND, .null⟩ := by
      simp [Cache.put, Cache.get, storeGet_storePut, from_bytes_to_bytes]
    simp [get_domain, hv, request_with_cache,
      cached_or_fetched_hit _ _ _ _ hget, cached_or_fetched_hit _ _ _ _ hget',
      CachedResponse.is_not_found]
  }

/-- C2 witness: a key-value cache holding an OK envelope with payload `5`
for endpoint `/e` is a hit, and `cached_or_fetched` replays it without
running the fetcher. -/
theorem cache_hit_replays_without_transport_witness :
    (Cache.minimalKV [(endpoint_to_key "/e",
      CachedResponse.to_bytes ⟨.OK, .num 5⟩)]).get "/e" = .ok ⟨.OK, .num 5⟩ ∧
    cached_or_fetched
      (Cache.minimalKV [(endpoint_to_key "/e",
        CachedResponse.to_bytes ⟨.OK, .num 5⟩)]) "/e"
      (fun _ => (.ok .null, [])) =
      (.ok (.num 5),
       Cache.minimalKV [(endpoint_to_key "/e",
         CachedResponse.to_bytes ⟨.OK, .num 5⟩)],
       [Event.cacheGet "/e"]) :=
  ⟨rfl,
   cache_hit_replays_without_transport.1
     (Cache.minimalKV [(endpoint_to_key "/e",
       CachedResponse.to_bytes ⟨.OK, .num 5⟩)])
     "/e" ⟨.OK, .num 5⟩ (fun _ => (.ok .null, [])) rfl⟩

/-- C3: paged fetching stops exactly at the first page shorter than the
page limit: with full pages at indices 0..2 and a page of `limit - 1`
records at index 3, `_request_paged` returns the four pages' records
concatenated in request order (`4 * limit - 1` records) and its transport
trace is exactly the calls for pages 0..3 — page 4 is never requested. -/
theorem request_paged_stops_at_first_short_page
    (api : StartupRadarAPI) (t : Transport) (endpoint : String)
    (f : Nat → List Json) (max_pages : Nat)
    (ht : ∀ p, t endpoint [("page", p), ("limit", api.page_limit)] =
      ⟨200, .arr (f p)⟩)
    (hlim : 1 ≤ api.page_limit)
    (h0 : (f 0).length = api.page_limit) (h1 : (f 1).length = api.page_limit)
    (h2 : (f 2).length = api.page_limit)
    (h3 : (f 3).length = api.page_limit - 1)
    (hmax : 4 ≤ max_pages) :
    request_paged api t endpoint max_pages =
      (.ok (.arr (f 0 ++ f 1 ++ f 2 ++ f 3)),
       pageCalls endpoint api.page_limit 0 3) ∧
      (f 0 ++ f 1 ++ f 2 ++ f 3).length = 4 * api.page_limit - 1 := by
  obtain ⟨k, rfl⟩ : ∃ k, max_pages = k + 4 := ⟨max_pages - 4, by omega⟩
  have hshort : (f 3).length < api.page_limit := by omega
  have e3 : request_paged_loop t endpoint api.page_limit 3 (k + 1) =
      (.ok [.arr (f 3)],
       [Event.transportCall endpoint [("page", 3), ("limit", api.page_limit)]]) :=
    request_paged_loop_stop _ _ _ _ _ _ (ht 3) hshort
  have e2 := request_paged_loop_cont t endpoint api.page_limit 2 (k + 1) _ _ _
    (ht 2) (by omega) e3
  have e1 := request_paged_loop_cont t endpoint api.page_limit 1 (k + 2) _ _ _
    (ht 1) (by omega) e2
  have e0 := request_paged_loop_cont t endpoint api.page_limit 0 (k + 3) _ _ _
    (ht 0) (by omega) e1
  constructor
  · simp only [request_paged]
    rw [show k + 4 = (k + 3) + 1 by omega, e0]
    simp [chainPages, pyIter, pageCalls]
  · simp only [List.length_append]
    omega

/-- C3 witness: page limit 2 with pages of sizes 2, 2, 2, 1 yields the 7
records of pages 0..3 and exactly four transport calls. -/
theorem request_paged_stops_at_first_short_page_witness :
    1 ≤ 2 ∧
    request_paged ⟨"key", 2, 100⟩ t3 "/e" 100 =
      (.ok (.arr (f3 0 ++ f3 1 ++ f3 2 ++ f3 3)), pageCalls "/e" 2 0 3) ∧
    (f3 0 ++ f3 1 ++ f3 2 ++ f3 3).length = 4 * 2 - 1 := by
  have H := request_paged_stops_at_first_short_page ⟨"key", 2, 100⟩ t3 "/e" f3
    100 (fun p => rfl) (by decide) rfl rfl rfl rfl (by decide)
  exact ⟨by decide, H.1, H.2⟩

/-- C4: `ensure_valid_domain` succeeds exactly when the domain is
non-empty, fixed by whitespace-stripping, and equal to the registrable
domain extracted from `"http://" + domain`; the three checks fail fast in
that order with the corresponding `InvalidDomain` reasons, the function is
pure (a plain function of the string, touching neither cache nor
transport), and `"127.0.0.1"`, `"localhost"`, `"api.example.com"` and
`"www.example.com"` all fail. -/
theorem ensure_valid_domain_characterization :
    (∀ d : String, ensure_valid_domain d = .ok () ↔
       (d ≠ "" ∧ pyStrip d = d ∧
        (tldextract ("http://" ++ d)).registered_domain = d)) ∧
    ensure_valid_domain "" = .error (.invalidDomain .falsy) ∧
    (∀ d : String, d ≠ "" → pyStrip d ≠ d →
       ensure_valid_domain d = .error (.invalidDomain .spaces)) ∧
    (∀ d : String, d ≠ "" → pyStrip d = d →
       (tldextract ("http://" ++ d)).registered_domain ≠ d →
       ensure_valid_domain d = .error (.invalidDomain .mismatch)) ∧
    ensure_valid_domain "127.0.0.1" = .error (.invalidDomain .mismatch) ∧
    ensure_valid_domain "localhost" = .error (.invalidDomain .mismatch) ∧
    ensure_valid_domain "api.example.com" = .error (.invalidDomain .mismatch) ∧
    ensure_valid_domain "www.example.com" = .error (.invalidDomain .mismatch) := by
  refine ⟨?_, rfl, ?_, ?_, rfl, rfl, rfl, rfl⟩
  · intro d
    simp only [ensure_valid_domain]
    split_ifs with h1 h2 h3
    · simp [h1]
    · simp [Ne.symm h2]
    · simp [h3]
    · constructor
      · intro _
        exact ⟨h1, (not_ne_iff.mp h2).symm, not_ne_iff.mp h3⟩
      · intro _; rfl
  · intro d h1 h2
    simp only [ensure_valid_domain]
    rw [if_neg h1, if_pos (fun h => h2 h.symm)]
  · intro d h1 h2 h3
    simp only [ensure_valid_domain]
    rw [if_neg h1, if_neg (fun h => h h2.symm), if_pos h3]

/-- C4 witness: `"localhost"` is non-empty and whitespace-clean but its
registrable-domain extraction is empty, so validation fails with the
mismatch-flavoured `InvalidDomain`. -/
theorem ensure_valid_domain_characterization_witness :
    ("localhost" ≠ "" ∧ pyStrip "localhost" = "localhost" ∧
      (tldextract ("http://" ++ "localhost")).registered_domain ≠ "localhost") ∧
    ensure_valid_domain "localhost" = .error (.invalidDomain .mismatch) :=
  ⟨⟨by decide, by decide, by decide⟩,
   ensure_valid_domain_characterization.2.2.2.1 "localhost" (by decide)
     (by decide) (by decide)⟩

/-- C5: when a cache miss's fetch fails with `Forbidden` or an unhandled
status, the failure propagates, the cache is unchanged (no put), and
repeating the call on the resulting cache performs the transport call
again. -/
theorem non_notFound_failures_propagate_uncached
    (t : Transport) (store : Store) (endpoint : String)
    (hmiss : storeGet (endpoint_to_key endpoint) store = none)
    (herr : (∃ d, requestResult (t endpoint []) = .error (.forbidden d)) ∨
            (∃ code, requestResult (t endpoint []) = .error (.apiError code))) :
    request_with_cache t (Cache.minimalKV store) endpoint [] =
      (requestResult (t endpoint []), Cache.minimalKV store,
       [Event.cacheGet endpoint, Event.transportCall endpoint []]) ∧
    Event.transportCall endpoint [] ∈
      (request_with_cache t
        ((request_with_cache t (Cache.minimalKV store) endpoint []).2.1)
        endpoint []).2.2 := by
  have h1 : request_with_cache t (Cache.minimalKV store) endpoint [] =
      (requestResult (t endpoint []), Cache.minimalKV store,
       [Event.cacheGet endpoint, Event.transportCall endpoint []]) := by
    rcases herr with ⟨d, hd⟩ | ⟨code, hc⟩ <;>
      simp [request_with_cache, cached_or_fetched, Cache.get, hmiss, request, *]
  refine ⟨h1, ?_⟩
  rw [h1]
  simp only []
  rw [h1]
  simp

/-- C5 witness: an empty store misses, a transport answering 403 with a
detail message fails with `Forbidden`, and the call leaves the cache
empty. -/
theorem non_notFound_failures_propagate_uncached_witness :
    storeGet (endpoint_to_key "/x") [] = none ∧
    request_with_cache t403 (Cache.minimalKV []) "/x" [] =
      (.error (.forbidden (.str "no")), Cache.minimalKV [],
       [Event.cacheGet "/x", Event.transportCall "/x" []]) :=
  ⟨rfl,
   (non_notFound_failures_propagate_uncached t403 [] "/x" rfl
     (Or.inl ⟨.str "no", rfl⟩)).1⟩

/-- C6: for every domain of the backlink denylist, `get_backlinks`
returns an empty list after only a warning-level log — no transport call
and no cache get or put, for every cache and transport. -/
theorem get_backlinks_denylist_short_circuits
    (api : StartupRadarAPI) (t : Transport) (c : Cache) (d : String)
    (h : d ∈ DOMAINS_IGNORED_BACKLINKS) :
    get_backlinks api t c d = (.ok (.arr []), c, [Event.logWarning]) := by
  simp only [DOMAINS_IGNORED_BACKLINKS, List.mem_cons, List.not_mem_nil,
    or_false] at h
  rcases h with h | h | h | h | h | h | h <;> subst h <;> rfl

/-- C6 witness: `google.com` is denylisted and short-circuits against the
404 transport and a pass-through cache. -/
theorem get_backlinks_denylist_short_circuits_witness :
    "google.com" ∈ DOMAINS_IGNORED_BACKLINKS ∧
    get_backlinks ⟨"key", 100, 100⟩ t404 Cache.passThrough "google.com" =
      (.ok (.arr []), Cache.passThrough, [Event.logWarning]) :=
  ⟨by decide,
   get_backlinks_denylist_short_circuits ⟨"key", 100, 100⟩ t404
     Cache.passThrough "google.com" (by decide)⟩

/-- C7: a request with a non-empty query-parameter dictionary bypasses the
cache entirely: the trace is a warning-level log followed by the direct
transport call — no cache get, no cache put — and the cache state is
returned unchanged. -/
theorem params_bypass_cache_with_warning
    (t : Transport) (c : Cache) (endpoint : String)
    (params : List (String × Nat)) (h : params ≠ []) :
    request_with_cache t c endpoint params =
      (requestResult (t endpoint params), c,
       [Event.logWarning, Event.transportCall endpoint params]) := by
  cases params with
  | nil => exact absurd rfl h
  | cons p ps => simp [request_with_cache, request]

/-- C7 witness: a `page` parameter forces the uncached path on a
pass-through cache against the 404 transport. -/
theorem params_bypass_cache_with_warning_witness :
    ([("page", 1)] : List (String × Nat)) ≠ [] ∧
    request_with_cache t404 Cache.passThrough "/e" [("page", 1)] =
      (.error .notFound, Cache.passThrough,
       [Event.logWarning, Event.transportCall "/e" [("page", 1)]]) :=
  ⟨by decide,
   params_bypass_cache_with_warning t404 Cache.passThrough "/e" [("page", 1)]
     (by decide)⟩

/-- C8: serializing an envelope and deserializing the bytes restores it
exactly: for every payload `v` and status, the round-trip yields the same
status and data; in particular an OK envelope restores `v` and a
NOT_FOUND envelope (whose constructor defaults the data to null)
round-trips to NOT_FOUND with null data. -/
theorem cachedResponse_roundtrip (st : ResponseStatus) (v : Json) :
    CachedResponse.from_bytes (CachedResponse.to_bytes ⟨st, v⟩) = .ok ⟨st, v⟩ ∧
    (CachedResponse.mk st v).data = v ∧
    (CachedResponse.mk .NOT_FOUND .null).data = .null :=
  ⟨from_bytes_to_bytes st v, rfl, rfl⟩

/-- C9: `generate_domains` walks `/web/domains` from page 0 and yields the
concatenation, in page order, of the records of pages `0..k`, where `k`
is the first page the transport returns empty (short-but-non-empty pages
do not stop it); its trace is exactly the page requests 0..k and contains
no cache get or put. -/
theorem generate_domains_walks_pages_uncached
    (api : StartupRadarAPI) (t : Transport) (f : Nat → List Json) (k : Nat)
    (ht : ∀ p, t "/web/domains" [("page", p), ("limit", api.page_limit)] =
      ⟨200, .arr (f p)⟩)
    (hne : ∀ p < k, f p ≠ []) (hempty : f k = []) :
    generate_domains api t (k + 1) =
      some (.ok (concatFrom f 0 k),
        pageCalls "/web/domains" api.page_limit 0 k) ∧
    ∀ e ∈ pageCalls "/web/domains" api.page_limit 0 k, e.isCacheOp = false := by
  refine ⟨?_, pageCalls_no_cache _ _ _ _⟩
  have H := generate_domains_loop_run api t f ht k 0
    (fun i hi => by simpa using hne i hi) (by simpa using hempty)
  simpa [generate_domains] using H

/-- C9 witness: pages `[0]`, `[1]`, then an empty page: the run yields the
two records with exactly three page requests. -/
theorem generate_domains_walks_pages_uncached_witness :
    f9 2 = [] ∧
    generate_domains ⟨"key", 7, 100⟩ t9 3 =
      some (.ok (concatFrom f9 0 2), pageCalls "/web/domains" 7 0 2) :=
  ⟨rfl,
   (generate_domains_walks_pages_uncached ⟨"key", 7, 100⟩ t9 f9 2
     (fun p => rfl)
     (fun p hp => by interval_cases p <;> simp [f9]) rfl).1⟩

set_option maxRecDepth 10000 in
/-- C10: the `max_pages` constructor argument is dead: `get_links` and
`get_backlinks` agree for any two clients differing only in `max_pages`,
because both bound pagination by the class default `MAX_PAGES_DEFAULT =
100`; concretely, a client constructed with `max_pages = 5` against an
always-full transport at page limit 1 still fetches exactly 100 pages. -/
theorem max_pages_constructor_argument_unused :
    (∀ (key : String) (pl m1 m2 : Nat) (t : Transport) (c : Cache) (d : String),
       get_links ⟨key, pl, m1⟩ t c d = get_links ⟨key, pl, m2⟩ t c d ∧
       get_backlinks ⟨key, pl, m1⟩ t c d = get_backlinks ⟨key, pl, m2⟩ t c d) ∧
    MAX_PAGES_DEFAULT = 100 ∧
    get_links ⟨"key", 1, 5⟩ tFull Cache.passThrough "x.com" =
      (.ok (.arr (List.replicate 100 Json.null)), Cache.passThrough,
       [Event.cacheGet "/web/domains/x.com/links/domain-links"] ++
         (List.range 100).map (fun p =>
           Event.transportCall "/web/domains/x.com/links/domain-links"
             [("page", p), ("limit", 1)]) ++
         [Event.cachePut "/web/domains/x.com/links/domain-links"]) :=
  ⟨fun key pl m1 m2 t c d => ⟨rfl, rfl⟩, rfl, by rfl⟩

end StartupRadar
